import Mathlib

/-!
Shallow embedding of `src/cleaningjson.py`, a one-shot Excel-to-JSON
converter (`convert_excel_to_json`), together with proofs of the spec
claims about it.

The Python pipeline is:
  1. `os.path.exists` check on the input path (early `return False`);
  2. `pd.read_excel(path, header=0)` (first sheet, row 1 is the header);
  3. header cleaning:
     `df.columns.str.strip().str.lower().str.replace(r'[^a-z0-9_]+', '_', regex=True)`;
  4. `json.loads(df.to_json(orient='records', date_format='iso'))`
     (pandas raises ValueError here when two columns share a name);
  5. `json.dump(..., indent=2, ensure_ascii=False)` to the output path;
  6. a `try/except` net with `FileNotFoundError`, `pd.errors.EmptyDataError`
     and a catch-all `Exception` branch, each printing and returning False.

Strings are modelled over their `List Char` data with ASCII semantics for
`strip`/`lower` (the headers of interest are ASCII).  Quote characters that
the Python f-strings put around paths are omitted from the modelled
messages; no claim depends on them.
-/

/-- Characters of the normalization output alphabet `[a-z0-9_]`
(the complement of the regex class `[^a-z0-9_]`). -/
def isAllowed (c : Char) : Bool :=
  (97 ≤ c.toNat && c.toNat ≤ 122) || (48 ≤ c.toNat && c.toNat ≤ 57) || c.toNat == 95

/-- ASCII whitespace stripped by Python `str.strip()`:
space, tab, newline, carriage return, vertical tab, form feed. -/
def isPySpace (c : Char) : Bool :=
  c.toNat == 32 || c.toNat == 9 || c.toNat == 10 ||
  c.toNat == 13 || c.toNat == 11 || c.toNat == 12

/-- ASCII model of Python `str.lower()` on one character. -/
def lowerChar (c : Char) : Char :=
  if 65 ≤ c.toNat && c.toNat ≤ 90 then Char.ofNat (c.toNat + 32) else c

/-- `str.strip()`: drop leading and trailing whitespace. -/
def stripChars (cs : List Char) : List Char :=
  ((cs.dropWhile isPySpace).reverse.dropWhile isPySpace).reverse

theorem dropWhile_length_le {α : Type} (p : α → Bool) (cs : List α) :
    (cs.dropWhile p).length ≤ cs.length := by
  induction cs with
  | nil => simp
  | cons c cs ih =>
    by_cases h : p c <;> simp [List.dropWhile_cons, h]
    omega

/-- The regex substitution replacing the class outside the alphabet,
which pandas `str.replace(..., regex=True)` performs on each column name:
the engine greedily matches each maximal run of characters outside
`[a-z0-9_]` and emits a single underscore for it. -/
def pyReplaceRuns : List Char → List Char
  | [] => []
  | c :: cs =>
    if isAllowed c then c :: pyReplaceRuns cs
    else '_' :: pyReplaceRuns (cs.dropWhile (fun d => !isAllowed d))
termination_by cs => cs.length
decreasing_by
  · simp_wf
  · simp_wf
    have h := dropWhile_length_le (fun d => !isAllowed d) cs
    omega

/-- Reference formulation of the spec sentence: walk the string once,
keeping allowed characters and emitting one underscore at the start of
every run of disallowed characters (`inRun` records whether the previous
character was disallowed). -/
def specRunAux (inRun : Bool) : List Char → List Char
  | [] => []
  | c :: cs =>
    if isAllowed c then c :: specRunAux false cs
    else if inRun then specRunAux true cs
    else '_' :: specRunAux true cs

/-- The header-normalization the code applies (step 3 above):
strip, lowercase, regex-replace. -/
def normalizeHeader (s : String) : String :=
  ⟨pyReplaceRuns ((stripChars s.data).map lowerChar)⟩

/-- Modelled from the spec sentence of section 3: trim surrounding
whitespace, lowercase all characters, then replace every maximal run of
characters outside the alphabet with a single underscore. -/
def refNormalize (s : String) : String :=
  ⟨specRunAux false ((stripChars s.data).map lowerChar)⟩

theorem specRunAux_true_eq (cs : List Char) :
    specRunAux true cs = specRunAux false (cs.dropWhile (fun d => !isAllowed d)) := by
  induction cs with
  | nil => rfl
  | cons c cs ih =>
    by_cases h : isAllowed c
    · simp [specRunAux, h, List.dropWhile_cons]
    · simp only [specRunAux, h, if_false, if_true, List.dropWhile_cons]
      simp [h, ih]

theorem pyReplaceRuns_eq_specRunAux (cs : List Char) :
    pyReplaceRuns cs = specRunAux false cs := by
  have H : ∀ n (cs : List Char), cs.length ≤ n →
      pyReplaceRuns cs = specRunAux false cs := by
    intro n
    induction n with
    | zero =>
      intro cs hcs
      match cs with
      | [] =>
        rw [pyReplaceRuns]
        rfl
    | succ n ih =>
      intro cs hcs
      match cs with
      | [] =>
        rw [pyReplaceRuns]
        rfl
      | c :: cs =>
        simp only [List.length_cons, Nat.succ_le_succ_iff] at hcs
        by_cases h : isAllowed c
        · rw [pyReplaceRuns]
          simp only [h, if_true, specRunAux]
          exact congrArg _ (ih cs hcs)
        · rw [pyReplaceRuns]
          simp only [h, if_false, specRunAux, Bool.false_eq_true]
          rw [specRunAux_true_eq]
          refine congrArg _ (ih _ ?_)
          exact le_trans (dropWhile_length_le _ cs) hcs
  exact H cs.length cs le_rfl

/-! ## Data model of the conversion pipeline -/

/-- A date/time value as pandas holds it (a timestamp broken into fields);
`to_json(date_format='iso')` renders it as an ISO-8601 string. -/
structure Timestamp where
  year : Nat
  month : Nat
  day : Nat
  hour : Nat
  minute : Nat
  second : Nat
  milli : Nat
deriving DecidableEq, Repr

def padNum (width n : Nat) : String :=
  let digits := toString n
  ⟨List.replicate (width - digits.length) '0'⟩ ++ digits

/-- ISO-8601 rendering used by `DataFrame.to_json(date_format='iso')`,
e.g. `2024-03-15T00:00:00.000`. -/
def isoFormat (t : Timestamp) : String :=
  padNum 4 t.year ++ "-" ++ padNum 2 t.month ++ "-" ++ padNum 2 t.day ++ "T" ++
  padNum 2 t.hour ++ ":" ++ padNum 2 t.minute ++ ":" ++ padNum 2 t.second ++
  "." ++ padNum 3 t.milli

/-- A cell of the source table: string, number, date/time, boolean, or
empty (pandas NaN).  Numbers are modelled as integers; the claims do not
depend on floating-point behaviour. -/
inductive Cell where
  | str (s : String)
  | num (n : Int)
  | date (t : Timestamp)
  | bool (b : Bool)
  | empty
deriving DecidableEq, Repr

/-- A JSON scalar value as it appears inside an output Record. -/
inductive JsonVal where
  | null
  | str (s : String)
  | num (n : Int)
  | bool (b : Bool)
deriving DecidableEq, Repr

/-- How `to_json(orient='records', date_format='iso')` renders one cell:
dates become ISO-8601 strings, NaN/empty becomes JSON null, scalars pass
through value-equal. -/
def renderCell : Cell → JsonVal
  | Cell.str s => JsonVal.str s
  | Cell.num n => JsonVal.num n
  | Cell.date t => JsonVal.str (isoFormat t)
  | Cell.bool b => JsonVal.bool b
  | Cell.empty => JsonVal.null

/-- The first sheet as parsed by `pd.read_excel(path, header=0)`: the
header row and the data rows below it, in sheet order.  pandas data
frames are rectangular, so each row has one cell per header. -/
structure Table where
  headers : List String
  rows : List (List Cell)
deriving Repr

/-- A Record: ordered key/value pairs of one output JSON object. -/
def Record := List (String × JsonVal)

/-- The Record built from one data row: normalized headers zipped with
the rendered cells of the row. -/
def recordOf (headers : List String) (row : List Cell) : List (String × JsonVal) :=
  (headers.map normalizeHeader).zip (row.map renderCell)

/-- True when some key occurs twice; `to_json(orient='records')` raises
`ValueError` exactly in this situation. -/
def hasDupKeys : List String → Bool
  | [] => false
  | k :: ks => ks.contains k || hasDupKeys ks

/-- A Python exception as observed by the `except` clauses of the code:
the two specifically-named classes, and everything else with its class
name and message text. -/
inductive PyExc where
  | fileNotFoundError (msg : String)
  | emptyDataError (msg : String)
  | otherError (ty msg : String)
deriving DecidableEq, Repr

/-- Outcome of `pd.read_excel` on the input file: a parsed table, or an
exception (corrupt file, file deleted between the existence check and the
read, ...). -/
inductive ReadResult where
  | ok (t : Table)
  | raise (e : PyExc)

/-- The environment of one call to `convert_excel_to_json`: the two path
arguments and the behaviour of the file system during the call (whether
the input exists at the `os.path.exists` check, what reading it yields,
and whether opening/writing the output raises). -/
structure Env where
  inputPath : String
  outputPath : String
  inputExists : Bool
  readExcel : ReadResult
  writeResult : Option PyExc

/-- The observable outcome of `convert_excel_to_json`: the returned
boolean, the JSON document written to the output path (`none` when the
function never completed a write), and the lines printed. -/
structure ConvertResult where
  success : Bool
  written : Option (List (List (String × JsonVal)))
  printed : List String
deriving Repr

/-- The body of the `try` block (lines 22-39 of the code): read the
sheet, normalize the columns, serialize to records (pandas raises
ValueError on duplicate column names here), write the file. -/
def tryBody (e : Env) : Except PyExc (List (List (String × JsonVal))) :=
  match e.readExcel with
  | ReadResult.raise exc => Except.error exc
  | ReadResult.ok t =>
    if hasDupKeys (t.headers.map normalizeHeader) then
      Except.error (PyExc.otherError "ValueError"
        "DataFrame columns must be unique for orient=records")
    else
      match e.writeResult with
      | some exc => Except.error exc
      | none => Except.ok (t.rows.map (recordOf t.headers))

/-- The `except` clauses (lines 41-50): what each prints.  Python string
`str(e)` is the exception message; the catch-all branch prints the class
name and the message. -/
def handleExc (inputPath : String) : PyExc → List String
  | PyExc.fileNotFoundError _ =>
    ["Error: The file " ++ inputPath ++ " was not found. Please check the path and filename."]
  | PyExc.emptyDataError _ =>
    ["Error: The Excel file " ++ inputPath ++ " is empty."]
  | PyExc.otherError ty msg =>
    ["An unexpected error occurred during conversion: " ++ msg,
     "Error details: " ++ ty ++ ": " ++ msg]

/-- `convert_excel_to_json(excel_file_path, json_output_path)`. -/
def convert (e : Env) : ConvertResult :=
  if e.inputExists = false then
    { success := false
      written := none
      printed :=
        ["Error: Excel file not found at " ++ e.inputPath,
         "Please ensure the Excel file is in the same directory as this script, or provide its full path."] }
  else
    match tryBody e with
    | Except.ok docs =>
      { success := true
        written := some docs
        printed :=
          ["✅ Successfully converted " ++ e.inputPath ++ " to " ++ e.outputPath,
           "📊 Total records converted: " ++ toString docs.length] }
    | Except.error exc =>
      { success := false
        written := none
        printed := handleExc e.inputPath exc }

/-- Outcome of one run of the script: the process exit code and the
printed lines. -/
structure ScriptRun where
  exitCode : Nat
  printed : List String

/-- The `if __name__ == "__main__"` block (lines 52-71): run the
conversion on the hard-coded paths, print a success or failure summary,
and fall off the end of the script (Python then exits with code 0; the
script never calls `sys.exit`). -/
def mainScript (e : Env) : ScriptRun :=
  let e2 : Env := { e with inputPath := "Emotions_6monthsExcel_Data.xlsx",
                           outputPath := "article_emotions_data.json" }
  let r := convert e2
  if r.success then
    { exitCode := 0
      printed := ["--- Starting Excel to JSON Conversion ---"] ++ r.printed ++
        ["--- Conversion Complete ---",
         "Next steps:",
         "1. Copy article_emotions_data.json into your website project directory (e.g., sentiment-lens/).",
         "2. Ensure your HTML file uses this path:",
         "   const JSON_DATA_PATH = article_emotions_data.json;",
         "3. Open your dashboard HTML in a browser to view the data."] }
  else
    { exitCode := 0
      printed := ["--- Starting Excel to JSON Conversion ---"] ++ r.printed ++
        ["--- Conversion Failed ---",
         "Please review the error messages above and ensure:",
         "- Your Excel file Emotions_6monthsExcel_Data.xlsx exists and is accessible.",
         "- You have pandas and openpyxl installed (pip install pandas openpyxl)."] }

/-! ## Small string helpers used to state the claims -/

/-- `needle` is an initial segment of `hay`. -/
def startsWithL : List Char → List Char → Bool
  | [], _ => true
  | _ :: _, [] => false
  | a :: as, b :: bs => a == b && startsWithL as bs

/-- `needle` occurs contiguously somewhere in `hay`. -/
def containsSub : List Char → List Char → Bool
  | [], needle => startsWithL needle []
  | c :: t, needle => startsWithL needle (c :: t) || containsSub t needle

/-- Substring test on strings (used to state that a printed diagnostic
mentions a path, an exception class or a message). -/
def strContains (hay needle : String) : Bool :=
  containsSub hay.data needle.data

/-- All characters of the string lie in the alphabet `[a-z0-9_]`. -/
def allAllowed (s : String) : Bool :=
  s.data.all isAllowed

/-! ## Helper lemmas -/

theorem normalizeHeader_spec_eq (s : String) : normalizeHeader s = refNormalize s := by
  rw [normalizeHeader, refNormalize, pyReplaceRuns_eq_specRunAux]

theorem isAllowed_not_space {c : Char} (h : isAllowed c = true) : isPySpace c = false := by
  simp only [isAllowed, Bool.or_eq_true, Bool.and_eq_true, decide_eq_true_eq,
    beq_iff_eq] at h
  simp only [isPySpace, Bool.or_eq_false_iff, beq_eq_false_iff_ne, ne_eq]
  omega

theorem lowerChar_of_allowed {c : Char} (h : isAllowed c = true) : lowerChar c = c := by
  have hc : (65 ≤ c.toNat && c.toNat ≤ 90) = false := by
    simp only [isAllowed, Bool.or_eq_true, Bool.and_eq_true, decide_eq_true_eq,
      beq_iff_eq] at h
    simp only [Bool.and_eq_false_iff, decide_eq_false_iff_not, not_le]
    omega
  rw [lowerChar, hc]
  simp

theorem dropWhile_eq_self_of_none {α : Type} {p : α → Bool} {cs : List α}
    (h : ∀ c ∈ cs, p c = false) : cs.dropWhile p = cs := by
  cases cs with
  | nil => rfl
  | cons c cs => simp [List.dropWhile_cons, h c (by simp)]

theorem stripChars_of_allowed {cs : List Char}
    (h : ∀ c ∈ cs, isAllowed c = true) : stripChars cs = cs := by
  rw [stripChars,
    dropWhile_eq_self_of_none (fun c hc => isAllowed_not_space (h c hc)),
    dropWhile_eq_self_of_none
      (fun c hc => isAllowed_not_space (h c (List.mem_reverse.mp hc))),
    List.reverse_reverse]

theorem map_lowerChar_of_allowed {cs : List Char}
    (h : ∀ c ∈ cs, isAllowed c = true) : cs.map lowerChar = cs := by
  induction cs with
  | nil => rfl
  | cons c cs ih =>
    simp only [List.map_cons, lowerChar_of_allowed (h c (by simp)),
      ih (fun d hd => h d (by simp [hd]))]

theorem specRunAux_of_allowed {cs : List Char}
    (h : ∀ c ∈ cs, isAllowed c = true) : specRunAux false cs = cs := by
  induction cs with
  | nil => rfl
  | cons c cs ih =>
    simp only [specRunAux, h c (by simp), if_true,
      ih (fun d hd => h d (by simp [hd]))]

theorem specRunAux_all_allowed (b : Bool) (cs : List Char) :
    (specRunAux b cs).all isAllowed = true := by
  induction cs generalizing b with
  | nil => rfl
  | cons c cs ih =>
    by_cases h : isAllowed c
    · simp [specRunAux, h, ih false]
    · cases b with
      | true => simpa [specRunAux, h] using ih true
      | false =>
        simp [specRunAux, h, ih true]
        decide

theorem normalizeHeader_all_allowed (s : String) :
    allAllowed (normalizeHeader s) = true := by
  rw [normalizeHeader_spec_eq, refNormalize]
  exact specRunAux_all_allowed false _

theorem normalizeHeader_idem (s : String) :
    normalizeHeader (normalizeHeader s) = normalizeHeader s := by
  have hall : ∀ c ∈ (normalizeHeader s).data, isAllowed c = true := by
    have h := normalizeHeader_all_allowed s
    simpa [allAllowed, List.all_eq_true] using h
  conv_lhs => rw [normalizeHeader_spec_eq, refNormalize]
  rw [stripChars_of_allowed hall]
  rw [map_lowerChar_of_allowed hall]
  rw [specRunAux_of_allowed hall]

/-- First-match lookup of a key in a Record, the association the output
JSON object realizes (keys are unique whenever `to_json` succeeded). -/
def lookupKey : List (String × JsonVal) → String → Option JsonVal
  | [], _ => none
  | (k, v) :: rest, key => if k == key then some v else lookupKey rest key

theorem lookupKey_zip {keys : List String} {vals : List JsonVal}
    (hnodup : hasDupKeys keys = false)
    (j : Nat) (hj : j < keys.length) (hj2 : j < vals.length) :
    lookupKey (keys.zip vals) (keys.get ⟨j, hj⟩) = some (vals.get ⟨j, hj2⟩) := by
  induction keys generalizing vals j with
  | nil => simp at hj
  | cons k ks ih =>
    match vals with
    | [] => simp at hj2
    | v :: vs =>
      simp only [hasDupKeys, Bool.or_eq_false_iff] at hnodup
      match j with
      | 0 => simp [lookupKey, List.zip_cons_cons]
      | Nat.succ j =>
        have hjk : j < ks.length := by simpa using hj
        have hjv : j < vs.length := by simpa using hj2
        have hmem : ks.get ⟨j, hjk⟩ ∈ ks := List.get_mem ks j hjk
        have hne : (k == ks.get ⟨j, hjk⟩) = false := by
          have hnc : k ∉ ks := by
            have := hnodup.1
            simpa [List.contains_iff_exists_mem_beq] using this
          exact beq_eq_false_iff_ne.mpr (fun he => hnc (he ▸ hmem))
        simp only [List.zip_cons_cons, lookupKey, List.get_cons_succ, hne,
          Bool.false_eq_true, if_false]
        exact ih hnodup.2 j hjk hjv

theorem startsWithL_self_append (xs ys : List Char) :
    startsWithL xs (xs ++ ys) = true := by
  induction xs with
  | nil => rfl
  | cons x xs ih => simp [startsWithL, ih]

theorem containsSub_of_starts {hay n : List Char}
    (h : startsWithL n hay = true) : containsSub hay n = true := by
  cases hay with
  | nil => simpa [containsSub] using h
  | cons c t => simp [containsSub, h]

theorem containsSub_self (xs : List Char) : containsSub xs xs = true := by
  apply containsSub_of_starts
  have h := startsWithL_self_append xs []
  simpa using h

theorem containsSub_prepend (pre : List Char) {hay n : List Char}
    (h : containsSub hay n = true) : containsSub (pre ++ hay) n = true := by
  induction pre with
  | nil => simpa using h
  | cons p pre ih =>
    simp only [List.cons_append, containsSub, Bool.or_eq_true]
    exact Or.inr ih

theorem strContains_append_self (pre s : String) :
    strContains (pre ++ s) s = true := by
  rw [strContains, String.data_append]
  exact containsSub_prepend _ (containsSub_self _)

/-! ## Claims -/

/-- C1: the header-normalization that convert_excel_to_json applies to every
column header (strip, lowercase, regex-replace on line 28 of the code)
equals the reference transform stated by the spec: trim surrounding
whitespace, lowercase all characters, then replace every maximal run of
characters outside the alphabet with a single underscore. -/
theorem C1_normalization_matches_reference (s : String) :
    normalizeHeader s = refNormalize s :=
  normalizeHeader_spec_eq s

/-- C7 counterexample: the literal header normalizes to `emotion_score_`,
not to `emotion_score____` as the claim states: the regex collapses the
whole run of four disallowed characters to one underscore. -/
theorem C7_counterexample :
    normalizeHeader "Emotion Score (%)" ≠ "emotion_score____" := by
  rw [normalizeHeader_spec_eq, refNormalize]
  decide

/-- C7 amended: the literal header `Emotion Score (%)` normalizes under the
program's header-normalization transform to the exact string
`emotion_score_`. -/
theorem C7_amended_normalization :
    normalizeHeader "Emotion Score (%)" = "emotion_score_" := by
  rw [normalizeHeader_spec_eq, refNormalize]
  decide

/-- C8: the header-normalization transform is idempotent (normalizing an
already-normalized header yields the same string) and deterministic (a
pure function: the same input always yields the same key). -/
theorem C8_idempotent_deterministic (s : String) :
    normalizeHeader (normalizeHeader s) = normalizeHeader s ∧
    normalizeHeader s = normalizeHeader s :=
  ⟨normalizeHeader_idem s, rfl⟩

/-- C9: on every run, whether the conversion returns True or False, the
top-level script prints its diagnostics and terminates normally with
process exit code 0 (it never calls sys.exit, so no distinct non-zero
exit code is set on failure). -/
theorem C9_exit_code_always_zero (e : Env) :
    (mainScript e).exitCode = 0 ∧ (mainScript e).printed ≠ [] := by
  rw [mainScript]
  split <;> simp

/-- C4: calling convert_excel_to_json with an input path that does not
exist returns False, prints the two lines of lines 18-19 of the code (the
first naming the missing file), raises nothing (the model function is
total), and writes no output file. -/
theorem C4_missing_input (e : Env) (h : e.inputExists = false) :
    (convert e).success = false ∧
    (convert e).written = none ∧
    (convert e).printed =
      ["Error: Excel file not found at " ++ e.inputPath,
       "Please ensure the Excel file is in the same directory as this script, or provide its full path."] ∧
    ∃ line ∈ (convert e).printed, strContains line e.inputPath = true := by
  refine ⟨by simp [convert, h], by simp [convert, h], by simp [convert, h], ?_⟩
  refine ⟨"Error: Excel file not found at " ++ e.inputPath, ?_, ?_⟩
  · simp [convert, h]
  · exact strContains_append_self _ _

/-- C4 witness: the theorem applied to a concrete call with a missing
input file. -/
theorem C4_missing_input_witness :
    ({ inputPath := "Emotions_6monthsExcel_Data.xlsx",
       outputPath := "article_emotions_data.json",
       inputExists := false,
       readExcel := ReadResult.raise (PyExc.fileNotFoundError "unreachable"),
       writeResult := none } : Env).inputExists = false ∧
    (convert { inputPath := "Emotions_6monthsExcel_Data.xlsx",
               outputPath := "article_emotions_data.json",
               inputExists := false,
               readExcel := ReadResult.raise (PyExc.fileNotFoundError "unreachable"),
               writeResult := none }).success = false :=
  ⟨rfl, (C4_missing_input _ rfl).1⟩

/-- The environment of a run on a sheet that has a header row and zero
data rows (used for claim C5). -/
def envC5 : Env :=
  { inputPath := "Emotions_6monthsExcel_Data.xlsx"
    outputPath := "article_emotions_data.json"
    inputExists := true
    readExcel := ReadResult.ok { headers := ["Date", "Dominant Emotion"], rows := [] }
    writeResult := none }

/-- C5 counterexample: on a spreadsheet whose first sheet contains a
header row but zero data rows, convert_excel_to_json returns True and
writes an empty array — it does not return False.  pandas parses such a
sheet into an empty data frame without raising, and none of the except
clauses fire. -/
theorem C5_counterexample :
    (convert envC5).success = true ∧ (convert envC5).written = some [] := by
  have hdup : hasDupKeys [normalizeHeader "Date", normalizeHeader "Dominant Emotion"] = false := by
    simp only [normalizeHeader_spec_eq]
    decide
  constructor <;> simp [convert, envC5, tryBody, hdup]

/-- C5 amended: on a successfully parsed sheet with zero data rows the
function returns True, writes an empty JSON array, and reports a record
count of 0 (rather than returning False). -/
theorem C5_amended_empty_rows (e : Env) (t : Table)
    (hex : e.inputExists = true)
    (hread : e.readExcel = ReadResult.ok t)
    (hdup : hasDupKeys (t.headers.map normalizeHeader) = false)
    (hwrite : e.writeResult = none)
    (hrows : t.rows = []) :
    (convert e).success = true ∧ (convert e).written = some [] ∧
      ("📊 Total records converted: 0" : String) ∈ (convert e).printed := by
  refine ⟨?_, ?_, ?_⟩ <;> simp [convert, hex, tryBody, hread, hdup, hwrite, hrows]
  exact Or.inr (by decide)

/-- C5 witness: the amended theorem applied to the concrete empty-sheet
run. -/
theorem C5_amended_witness :
    envC5.inputExists = true ∧
    envC5.readExcel = ReadResult.ok { headers := ["Date", "Dominant Emotion"], rows := [] } ∧
    hasDupKeys (List.map normalizeHeader ["Date", "Dominant Emotion"]) = false ∧
    envC5.writeResult = none ∧
    (convert envC5).success = true :=
  ⟨rfl, rfl,
   by simp only [List.map_cons, List.map_nil, normalizeHeader_spec_eq]; decide,
   rfl,
   (C5_amended_empty_rows envC5 _ rfl rfl
     (by simp only [List.map_cons, List.map_nil, normalizeHeader_spec_eq]; decide)
     rfl rfl).1⟩

/-- C2: round-trip of cell values: for every call that successfully
converts a parsed table, the written document is the row-wise list of
Records, and inside each Record every cell of the source row appears
value-equal under the normalized key of its column — date/time cells
rendered as ISO-8601 strings and empty cells as JSON null (`renderCell`).
The duplicate-column guard of `to_json` makes the keys of a successful
conversion unique, so the lookup is unambiguous. -/
theorem C2_cell_roundtrip (e : Env) (t : Table)
    (hex : e.inputExists = true)
    (hread : e.readExcel = ReadResult.ok t)
    (hdup : hasDupKeys (t.headers.map normalizeHeader) = false)
    (hwrite : e.writeResult = none) :
    (convert e).success = true ∧
    (convert e).written = some (t.rows.map (recordOf t.headers)) ∧
    ∀ row ∈ t.rows, ∀ j, ∀ hj : j < row.length, ∀ hj2 : j < t.headers.length,
      lookupKey (recordOf t.headers row) (normalizeHeader (t.headers.get ⟨j, hj2⟩)) =
        some (renderCell (row.get ⟨j, hj⟩)) := by
  refine ⟨by simp [convert, hex, tryBody, hread, hdup, hwrite],
          by simp [convert, hex, tryBody, hread, hdup, hwrite], ?_⟩
  intro row _ j hj hj2
  have hklen : j < (t.headers.map normalizeHeader).length := by simpa using hj2
  have hvlen : j < (row.map renderCell).length := by simpa using hj
  have h1 : (t.headers.map normalizeHeader).get ⟨j, hklen⟩ =
      normalizeHeader (t.headers.get ⟨j, hj2⟩) := by
    simp
  have h2 : (row.map renderCell).get ⟨j, hvlen⟩ = renderCell (row.get ⟨j, hj⟩) := by
    simp
  rw [recordOf, ← h1, ← h2]
  exact lookupKey_zip hdup j hklen hvlen

/-- A concrete one-row table and run used to witness claim C2. -/
def tC2 : Table :=
  { headers := ["Date", "Dominant Emotion", "Emotion Score (%)"]
    rows := [[Cell.date ⟨2024, 3, 15, 0, 0, 0, 0⟩, Cell.str "joy", Cell.empty]] }

def envC2 : Env :=
  { inputPath := "Emotions_6monthsExcel_Data.xlsx"
    outputPath := "article_emotions_data.json"
    inputExists := true
    readExcel := ReadResult.ok tC2
    writeResult := none }

/-- C2 witness: the round-trip theorem applied to a concrete run whose
row holds a date cell, a string cell and an empty cell. -/
theorem C2_cell_roundtrip_witness :
    envC2.inputExists = true ∧
    envC2.readExcel = ReadResult.ok tC2 ∧
    hasDupKeys (tC2.headers.map normalizeHeader) = false ∧
    envC2.writeResult = none ∧
    (convert envC2).success = true :=
  ⟨rfl, rfl,
   by simp only [tC2, List.map_cons, List.map_nil, normalizeHeader_spec_eq]; decide,
   rfl,
   (C2_cell_roundtrip envC2 tC2 rfl rfl
     (by simp only [tC2, List.map_cons, List.map_nil, normalizeHeader_spec_eq]; decide)
     rfl).1⟩

/-- C3: for every successfully converted table, the output document is the
ordered array holding exactly one Record per data row (header row is not a
data row in the model), in input order — the written value is the row-wise
map — and the reported and serialized record count equals the number of
data rows. -/
theorem C3_one_record_per_row (e : Env) (t : Table)
    (hex : e.inputExists = true)
    (hread : e.readExcel = ReadResult.ok t)
    (hdup : hasDupKeys (t.headers.map normalizeHeader) = false)
    (hwrite : e.writeResult = none) :
    (convert e).success = true ∧
    (convert e).written = some (t.rows.map (recordOf t.headers)) ∧
    (t.rows.map (recordOf t.headers)).length = t.rows.length ∧
    ("📊 Total records converted: " ++ toString t.rows.length) ∈ (convert e).printed := by
  refine ⟨by simp [convert, hex, tryBody, hread, hdup, hwrite],
          by simp [convert, hex, tryBody, hread, hdup, hwrite],
          by simp, ?_⟩
  simp [convert, hex, tryBody, hread, hdup, hwrite]

/-- A concrete two-row table and run used to witness claim C3. -/
def tC3 : Table :=
  { headers := ["Date", "Emotion"]
    rows := [[Cell.str "2024-01-01", Cell.str "joy"],
             [Cell.str "2024-01-02", Cell.str "fear"]] }

def envC3 : Env :=
  { inputPath := "Emotions_6monthsExcel_Data.xlsx"
    outputPath := "article_emotions_data.json"
    inputExists := true
    readExcel := ReadResult.ok tC3
    writeResult := none }

/-- C3 witness: the theorem applied to a concrete two-row run. -/
theorem C3_one_record_per_row_witness :
    envC3.inputExists = true ∧
    envC3.readExcel = ReadResult.ok tC3 ∧
    hasDupKeys (tC3.headers.map normalizeHeader) = false ∧
    envC3.writeResult = none ∧
    (tC3.rows.map (recordOf tC3.headers)).length = tC3.rows.length :=
  ⟨rfl, rfl,
   by simp only [tC3, List.map_cons, List.map_nil, normalizeHeader_spec_eq]; decide,
   rfl,
   (C3_one_record_per_row envC3 tC3 rfl rfl
     (by simp only [tC3, List.map_cons, List.map_nil, normalizeHeader_spec_eq]; decide)
     rfl).2.2.1⟩

/-- C10: in every Record of the document written by a successful
conversion, every key is a string over the alphabet `[a-z0-9_]` — the
normalization's output alphabet — so every output key is a
machine-friendly identifier. -/
theorem C10_keys_in_output_alphabet (e : Env) (t : Table)
    (docs : List (List (String × JsonVal)))
    (hex : e.inputExists = true)
    (hread : e.readExcel = ReadResult.ok t)
    (hdup : hasDupKeys (t.headers.map normalizeHeader) = false)
    (hwrite : e.writeResult = none)
    (hw : (convert e).written = some docs) :
    ∀ rec ∈ docs, ∀ kv ∈ rec, allAllowed kv.1 = true := by
  have hwm : (convert e).written = some (t.rows.map (recordOf t.headers)) := by
    simp [convert, hex, tryBody, hread, hdup, hwrite]
  have hdocs : docs = t.rows.map (recordOf t.headers) :=
    Option.some_inj.mp (hw.symm.trans hwm)
  subst hdocs
  intro rec hrec kv hkv
  obtain ⟨row, _, hrow⟩ := List.mem_map.mp hrec
  subst hrow
  obtain ⟨k, v⟩ := kv
  have hk : k ∈ t.headers.map normalizeHeader := (List.of_mem_zip hkv).1
  obtain ⟨h0, _, hh⟩ := List.mem_map.mp hk
  subst hh
  exact normalizeHeader_all_allowed h0

/-- A concrete run used to witness claim C10. -/
def tC10 : Table :=
  { headers := ["Date", "Emotion Score (%)"]
    rows := [[Cell.num 5, Cell.num 87]] }

def envC10 : Env :=
  { inputPath := "Emotions_6monthsExcel_Data.xlsx"
    outputPath := "article_emotions_data.json"
    inputExists := true
    readExcel := ReadResult.ok tC10
    writeResult := none }

/-- C10 witness: the theorem applied to a concrete run and its written
document. -/
theorem C10_keys_in_output_alphabet_witness :
    envC10.inputExists = true ∧
    envC10.readExcel = ReadResult.ok tC10 ∧
    hasDupKeys (tC10.headers.map normalizeHeader) = false ∧
    envC10.writeResult = none ∧
    (convert envC10).written = some (tC10.rows.map (recordOf tC10.headers)) ∧
    ∀ rec ∈ tC10.rows.map (recordOf tC10.headers), ∀ kv ∈ rec, allAllowed kv.1 = true :=
  ⟨rfl, rfl,
   by simp only [tC10, List.map_cons, List.map_nil, normalizeHeader_spec_eq]; decide,
   rfl,
   by simp [convert, envC10, tryBody,
        show hasDupKeys (tC10.headers.map normalizeHeader) = false from
          by simp only [tC10, List.map_cons, List.map_nil, normalizeHeader_spec_eq]; decide],
   C10_keys_in_output_alphabet envC10 tC10 (tC10.rows.map (recordOf tC10.headers))
     rfl rfl
     (by simp only [tC10, List.map_cons, List.map_nil, normalizeHeader_spec_eq]; decide)
     rfl
     (by simp [convert, envC10, tryBody,
        show hasDupKeys (tC10.headers.map normalizeHeader) = false from
          by simp only [tC10, List.map_cons, List.map_nil, normalizeHeader_spec_eq]; decide])⟩

/-- The environment of a run in which `pd.read_excel` raises
FileNotFoundError (the input file disappeared between the `os.path.exists`
check and the read), used for claim C6. -/
def envC6 : Env :=
  { inputPath := "Emotions_6monthsExcel_Data.xlsx"
    outputPath := "article_emotions_data.json"
    inputExists := true
    readExcel := ReadResult.raise
      (PyExc.fileNotFoundError "No such file or directory: Emotions_6monthsExcel_Data.xlsx")
    writeResult := none }

/-- C6 counterexample: a FileNotFoundError raised inside the try block is
caught and the function returns False, but the printed diagnostic (line 42
of the code) contains neither the exception class name nor the exception
message — refuting the claim that every caught exception is reported with
its type and text. -/
theorem C6_counterexample :
    (convert envC6).success = false ∧
    ((convert envC6).printed.all
      (fun l => !(strContains l "FileNotFoundError")) = true) ∧
    ((convert envC6).printed.all
      (fun l => !(strContains l "No such file or directory")) = true) := by
  refine ⟨rfl, ?_, ?_⟩ <;> decide

/-- C6 amended: every exception raised during parse, serialization or file
write inside the try block is caught and the function returns False with a
diagnostic printed (no exception escapes: the model function is total);
for exceptions other than the specifically-handled FileNotFoundError and
EmptyDataError classes, the diagnostic includes the exception class name
and message text. -/
theorem C6_amended_catch_all (e : Env) (exc : PyExc)
    (hex : e.inputExists = true)
    (hraise : tryBody e = Except.error exc) :
    (convert e).success = false ∧
    (convert e).printed ≠ [] ∧
    (∀ ty msg, exc = PyExc.otherError ty msg →
      ∃ line ∈ (convert e).printed,
        strContains line ty = true ∧ strContains line msg = true) := by
  have hc : convert e =
      { success := false, written := none, printed := handleExc e.inputPath exc } := by
    simp [convert, hex, hraise]
  rw [hc]
  refine ⟨rfl, ?_, ?_⟩
  · cases exc <;> simp [handleExc]
  · intro ty msg hmsg
    subst hmsg
    refine ⟨"Error details: " ++ ty ++ ": " ++ msg, by simp [handleExc], ?_, ?_⟩
    · show containsSub (("Error details: " ++ ty ++ ": " ++ msg).data) ty.data = true
      rw [String.data_append, String.data_append, String.data_append,
        List.append_assoc, List.append_assoc]
      exact containsSub_prepend _
        (containsSub_of_starts (startsWithL_self_append _ _))
    · show containsSub (("Error details: " ++ ty ++ ": " ++ msg).data) msg.data = true
      rw [String.data_append]
      exact containsSub_prepend _ (containsSub_self _)

/-- The environment of a run in which writing the output file raises
PermissionError, used to witness the amended claim C6. -/
def envC6w : Env :=
  { inputPath := "Emotions_6monthsExcel_Data.xlsx"
    outputPath := "article_emotions_data.json"
    inputExists := true
    readExcel := ReadResult.ok { headers := ["Date"], rows := [[Cell.num 1]] }
    writeResult := some (PyExc.otherError "PermissionError" "Permission denied: article_emotions_data.json") }

/-- C6 witness: the amended theorem applied to a concrete run whose output
write raises PermissionError. -/
theorem C6_amended_catch_all_witness :
    envC6w.inputExists = true ∧
    tryBody envC6w = Except.error
      (PyExc.otherError "PermissionError" "Permission denied: article_emotions_data.json") ∧
    (convert envC6w).success = false :=
  ⟨rfl,
   by simp [tryBody, envC6w, hasDupKeys, normalizeHeader_spec_eq],
   (C6_amended_catch_all envC6w
     (PyExc.otherError "PermissionError" "Permission denied: article_emotions_data.json") rfl
     (by simp [tryBody, envC6w, hasDupKeys, normalizeHeader_spec_eq])).1⟩
